import Mathlib

/-!
Shallow embedding of the linkedin_mcp orchestration core (TypeScript) in Lean 4,
together with proofs of the specification claims about it.

Conventions used throughout:
* JavaScript strings are modelled by `String`; `str.includes(pat)` by `strContains`,
  `str.toLowerCase()` by `jsToLower` (ASCII case folding, which is all the phrase
  tables exercise), `str.trim()` by `String.trim`.
* `page.$(sel)` is modelled by an association lookup in an abstract DOM: a page
  carries a list of elements, each tagged with the selector string that finds it
  and a visibility flag.  `element.isVisible()` reads the flag.
* JavaScript numbers are modelled by `Int` where the code only does integer
  arithmetic (timestamps, delays, limits) and by `ℚ` where fractional values
  flow (the session speed factor, Bézier coordinates).  `Math.random()` results
  are explicit `ℚ` parameters `r` with `0 ≤ r < 1`.
* `async` sequencing is modelled by explicit state/trace passing; each await of
  a browser/detector call that depends on the live page takes its outcome from
  an explicit world record, since the page can change between awaits.
-/

namespace LinkedinMcp

/-- Model of JavaScript `String.prototype.includes`: `strContains hay pat` is
true iff `pat` occurs as a contiguous substring of `hay`. -/
def strContains (hay pat : String) : Bool :=
  (List.range (hay.data.length + 1)).any (fun i => pat.data.isPrefixOf (hay.data.drop i))

/-- ASCII lower-casing of one character (the only characters the detector's
phrase tables contain are ASCII). -/
def lowerChar (c : Char) : Char :=
  if 'A' ≤ c ∧ c ≤ 'Z' then Char.ofNat (c.toNat + 32) else c

/-- Model of JavaScript `String.prototype.toLowerCase` on ASCII text. -/
def jsToLower (s : String) : String := String.mk (s.data.map lowerChar)

/-- Model of JavaScript `str.split('?')[0]`: the part of the string before the
first `?`, or the whole string when no `?` occurs. -/
def beforeQuery (s : String) : String := String.mk (s.data.takeWhile (fun c => c ≠ '?'))

/-- An apostrophe, as a string (several phrase-table entries contain one). -/
def apo : String := String.mk [Char.ofNat 39]

-- ============================================
-- Problem detector (src/detector): page model
-- ============================================
/-- One element of the abstract DOM: the selector string under which
`page.$(...)` finds it, and the result of `element.isVisible()`. -/
structure PageElem where
  selector : String
  visible : Bool
deriving DecidableEq, Repr

/-- Abstract state of the rendered page, as the detector observes it:
the current location, the queryable elements, and `textContent('body')`
(`none` models the call failing or returning null). -/
structure PageState where
  url : String
  elems : List PageElem
  bodyText : Option String
deriving DecidableEq, Repr

/-- Model of `page.$(sel)`: the first element the selector finds, if any. -/
def query (p : PageState) (sel : String) : Option PageElem :=
  p.elems.find? (fun e => e.selector == sel)

/-- Model of `page.$(sel)` followed by `element.isVisible()`, the pattern every
detector selector loop uses. -/
def queryVisible (p : PageState) (sel : String) : Bool :=
  match query p sel with
  | some e => e.visible
  | none => false

-- src/detector/loginwall.ts
def LOGIN_URLS : List String :=
  ["/login", "/checkpoint", "/uas/login", "/authwall", "/signup"]

def LOGIN_SELECTORS : List String :=
  ["[data-test-modal-id=\"join-now-modal\"]",
   "[data-test-modal-id=\"sign-in-modal\"]",
   ".authwall-join-form",
   ".sign-in-form",
   "#join-form",
   "form[action*=\"login\"]",
   "form[action*=\"session\"]"]

def LOGIN_TEXTS : List String :=
  ["sign in to view", "join to view", "log in to continue", "sign up to view",
   "join linkedin", "create an account", "please sign in"]

/-- Model of `detectLoginRequired` from src/detector/loginwall.ts: URL pattern check,
then visible login modal/form check, then authentication-phrase check guarded
by the absence of the `.global-nav` chrome (a presence check, not a
visibility check, in the source). -/
def detectLoginRequired (p : PageState) : Bool :=
  LOGIN_URLS.any (fun loginUrl => strContains p.url loginUrl) ||
  LOGIN_SELECTORS.any (fun sel => queryVisible p sel) ||
  (match p.bodyText with
   | some bodyText =>
     let lowerText := jsToLower bodyText
     LOGIN_TEXTS.any (fun phrase =>
       strContains lowerText phrase && (query p ".global-nav").isNone)
   | none => false)

def getLoginHint : String :=
  "Session expired or login required. Please log in to LinkedIn manually in the browser, then try again."

-- src/detector/captcha.ts
def CAPTCHA_SELECTORS : List String :=
  ["iframe[src*=\"recaptcha\"]",
   "iframe[src*=\"captcha\"]",
   "iframe[src*=\"challenge\"]",
   "[class*=\"captcha\"]",
   "[id*=\"captcha\"]",
   "img[src*=\"captcha\"]",
   "[aria-label*=\"security verification\"]",
   "[aria-label*=\"Verify\"]",
   ".g-recaptcha",
   "#recaptcha"]

def CAPTCHA_TEXTS : List String :=
  ["security verification",
   "verify you" ++ apo ++ "re a human",
   "complete the security check",
   "unusual activity",
   "confirm you" ++ apo ++ "re not a robot",
   "prove you" ++ apo ++ "re human"]

/-- Model of `detectCaptcha` from src/detector/captcha.ts. -/
def detectCaptcha (p : PageState) : Bool :=
  CAPTCHA_SELECTORS.any (fun sel => queryVisible p sel) ||
  (match p.bodyText with
   | some bodyText =>
     let lowerText := jsToLower bodyText
     CAPTCHA_TEXTS.any (fun phrase => strContains lowerText phrase)
   | none => false)

/-- Model of `getCaptchaHint` from src/detector/captcha.ts (presence checks, not
visibility checks, in the source). -/
def getCaptchaHint (p : PageState) : String :=
  if (query p "iframe[src*=\"recaptcha\"]").isSome then
    "Google reCAPTCHA detected - click the checkbox or solve image puzzle"
  else if (query p "[class*=\"challenge\"]").isSome then
    "LinkedIn security challenge - follow the on-screen instructions"
  else
    "Security verification required - please solve manually"

-- src/detector/ratelimit.ts
def RATE_LIMIT_TEXTS : List String :=
  ["you" ++ apo ++ "ve reached the weekly invitation limit",
   "you" ++ apo ++ "ve reached the commercial use limit",
   "you" ++ apo ++ "ve reached your weekly limit",
   "too many requests",
   "slow down",
   "temporarily restricted",
   "you" ++ apo ++ "re temporarily restricted",
   "try again later",
   "limit reached",
   "search limit",
   "connection request limit"]

def RATE_LIMIT_SELECTORS : List String :=
  [".ip-fuse-limit-alert",
   "[class*=\"limit-reached\"]",
   ".commercial-use-limit",
   "[data-test-modal*=\"limit\"]",
   ".search-no-results__message"]

/-- Model of `detectRateLimit` from src/detector/ratelimit.ts. -/
def detectRateLimit (p : PageState) : Bool :=
  RATE_LIMIT_SELECTORS.any (fun sel => queryVisible p sel) ||
  (match p.bodyText with
   | some bodyText =>
     let lowerText := jsToLower bodyText
     RATE_LIMIT_TEXTS.any (fun phrase => strContains lowerText phrase)
   | none => false)

/-- Model of `getRateLimitHint` from src/detector/ratelimit.ts, as invoked by the
detector entry point (no `type` argument, hence the default branch). -/
def getRateLimitHint : String :=
  "Rate limit reached. Take a break and try again later (recommended: 1-2 hours)."

-- src/detector/index.ts
/-- The problem taxonomy of src/types.ts, plus `navigation_failed`, which the
handlers also produce. -/
inductive ProblemReason where
  | captcha_detected
  | rate_limited
  | login_required
  | unexpected_ui
  | element_not_found
  | timeout
  | network_error
  | navigation_failed
deriving DecidableEq, Repr

/-- Model of `DetectedProblem` from src/detector/index.ts. -/
structure DetectedProblem where
  reason : ProblemReason
  hint : String
deriving DecidableEq, Repr

/-- Model of `ProblemDetector.detectProblems` from src/detector/index.ts: the three
checks in source order (login wall, then CAPTCHA, then rate limit), returning
the first positive one. -/
def detectProblems (p : PageState) : Option DetectedProblem :=
  if detectLoginRequired p then
    some { reason := .login_required, hint := getLoginHint }
  else if detectCaptcha p then
    some { reason := .captcha_detected, hint := getCaptchaHint p }
  else if detectRateLimit p then
    some { reason := .rate_limited, hint := getRateLimitHint }
  else
    none

/-- Model of `ProblemDetector.hasRateLimit` from src/detector/index.ts. -/
def hasRateLimit (p : PageState) : Bool := detectRateLimit p

/-- A synthetic page satisfying both a login-wall condition (authwall URL)
and a CAPTCHA condition (visible reCAPTCHA iframe). -/
def c1Page : PageState :=
  { url := "https://www.linkedin.com/authwall?trk=x"
    elems := [{ selector := "iframe[src*=\"recaptcha\"]", visible := true }]
    bodyText := some "Security Verification required" }

-- ============================================
-- Humanize layer (src/browser/humanize.ts)
-- ============================================
/-- Model of `DelayConfig` from src/types.ts: a `{min, max}` millisecond range. -/
structure DelayConfig where
  min : Int
  max : Int
deriving DecidableEq, Repr

/-- Model of `randomBetween(min, max)` from src/browser/humanize.ts:
`Math.floor(Math.random() * (max - min + 1)) + min`, with the
`Math.random()` draw `r` made explicit. -/
def randomBetween (lo hi : Int) (r : ℚ) : Int :=
  ⌊r * ((hi : ℚ) - (lo : ℚ) + 1)⌋ + lo

/-- Model of `randomDelay(config)` from src/browser/humanize.ts. -/
def randomDelay (config : DelayConfig) (r : ℚ) : Int :=
  randomBetween config.min config.max r

-- ============================================
-- Configuration (src/config.ts, the session-speed-factor version)
-- ============================================
/-- Model of `sessionSpeedFactor = 0.7 + Math.random() * 0.6` from src/config.ts,
with the one-per-process `Math.random()` draw made explicit. -/
def sessionSpeedFactor (r : ℚ) : ℚ := 7/10 + r * (6/10)

/-- JavaScript `Math.round`: `⌊x + 1/2⌋` (half rounds toward +∞). -/
def jsRound (q : ℚ) : Int := ⌊q + 1/2⌋

/-- Model of `applyFactor` from `loadConfig` in src/config.ts: both endpoints of a
delay range are scaled by the session speed factor and rounded at
configuration-load time. -/
def applyFactor (factor : ℚ) (config : DelayConfig) : DelayConfig :=
  { min := jsRound ((config.min : ℚ) * factor)
    max := jsRound ((config.max : ℚ) * factor) }

/-- The delay ranges of `Config.delays` from src/types.ts / src/config.ts. -/
structure Delays where
  betweenActions : DelayConfig
  beforeClick : DelayConfig
  typingSpeed : DelayConfig
  readingProfile : DelayConfig
  afterSearch : DelayConfig
  betweenScrolls : DelayConfig
  microPause : DelayConfig
deriving DecidableEq, Repr

/-- Model of `Config.session` from src/types.ts. -/
structure SessionConfig where
  pauseInterval : Int
  pauseDuration : Int
deriving DecidableEq, Repr

/-- The part of `Config` the orchestration core reads (src/types.ts). -/
structure Config where
  delays : Delays
  session : SessionConfig
deriving DecidableEq, Repr

-- ============================================
-- Bézier mouse path (src/browser/humanize.ts)
-- ============================================
/-- A 2-D point, as in src/browser/humanize.ts. -/
structure Point where
  x : ℚ
  y : ℚ
deriving DecidableEq, Repr

/-- Model of `bezierCurve(t, p0, p1, p2, p3)` from src/browser/humanize.ts: one
coordinate of a cubic Bézier curve. -/
def bezierCurve (t p0 p1 p2 p3 : ℚ) : ℚ :=
  let u := 1 - t
  u * u * u * p0 + 3 * u * u * t * p1 + 3 * u * t * t * p2 + t * t * t * p3

/-- Model of `generatePath(start, end, steps)` from src/browser/humanize.ts: the two
control points are placed at 0.25 and 0.75 of the straight segment and
perturbed by `randomBetween(-50, 50)` / `randomBetween(-30, 30)` draws; the
emitted points sample the Bézier curve at `t = i / steps` for
`i = 0 .. steps`. -/
def generatePath (start endp : Point) (steps : Nat) (r1x r1y r2x r2y : ℚ) : List Point :=
  let cp1 : Point :=
    { x := start.x + (endp.x - start.x) * (1/4) + (randomBetween (-50) 50 r1x : Int)
      y := start.y + (endp.y - start.y) * (1/4) + (randomBetween (-30) 30 r1y : Int) }
  let cp2 : Point :=
    { x := start.x + (endp.x - start.x) * (3/4) + (randomBetween (-50) 50 r2x : Int)
      y := start.y + (endp.y - start.y) * (3/4) + (randomBetween (-30) 30 r2y : Int) }
  (List.range (steps + 1)).map (fun (i : Nat) =>
    let t : ℚ := (i : ℚ) / (steps : ℚ)
    { x := bezierCurve t start.x cp1.x cp2.x endp.x
      y := bezierCurve t start.y cp1.y cp2.y endp.y })

/-- The target point `humanMouseMove` aims at: the requested point jittered
by `randomBetween(-5, 5)` horizontally and `randomBetween(-3, 3)`
vertically. -/
def jitteredTarget (targetX targetY : ℚ) (rjx rjy : ℚ) : Point :=
  { x := targetX + (randomBetween (-5) 5 rjx : Int)
    y := targetY + (randomBetween (-3) 3 rjy : Int) }

/-- Model of `humanMouseMove` from src/browser/humanize.ts, as the list of pointer
positions it emits: the jittered target is computed, the step count is drawn
by `randomBetween(15, 30)`, and the Bézier path is generated. -/
def humanMouseMove (start : Point) (targetX targetY : ℚ)
    (rjx rjy rsteps r1x r1y r2x r2y : ℚ) : List Point :=
  let target := jitteredTarget targetX targetY rjx rjy
  let steps := (randomBetween 15 30 rsteps).toNat
  generatePath start target steps r1x r1y r2x r2y

-- ============================================
-- SessionManager (src/browser/humanize.ts)
-- ============================================
/-- The mutable fields of `SessionManager`. -/
structure SessionState where
  lastActionTime : Int
  actionsCount : Int
  sessionStartTime : Int
deriving DecidableEq, Repr

/-- Model of `SessionManager.beforeAction` from src/browser/humanize.ts, with time
explicit: `now` is the value of the first `Date.now()` call.  The session
pause (if due) sleeps `pauseDuration` and resets the session clock; the
minimum-gap check compares `now - lastActionTime` (the gap at entry) with
the configured floor and sleeps the remainder; the final
`this.lastActionTime = Date.now()` stamps the time after all sleeping.
Sleeps advance the clock by exactly the slept amount (single-task
cooperative model). -/
def beforeAction (cfg : Config) (st : SessionState) (now : Int) : SessionState :=
  let actionsCount := st.actionsCount + 1
  let sessionDuration := now - st.sessionStartTime
  let pauses := sessionDuration > cfg.session.pauseInterval
  let afterPause := if pauses then now + cfg.session.pauseDuration else now
  let sessionStartTime := if pauses then afterPause else st.sessionStartTime
  let timeSinceLastAction := now - st.lastActionTime
  let minDelay := cfg.delays.betweenActions.min
  let lastActionTime :=
    if timeSinceLastAction < minDelay then afterPause + (minDelay - timeSinceLastAction)
    else afterPause
  { lastActionTime := lastActionTime, actionsCount := actionsCount,
    sessionStartTime := sessionStartTime }

/-- Model of `SessionManager.afterAction` from src/browser/humanize.ts: sleeps a
delay drawn from the between-actions range (`r` is the random draw), then
stamps `lastActionTime`. -/
def afterAction (cfg : Config) (st : SessionState) (now : Int) (r : ℚ) : SessionState :=
  { st with lastActionTime := now + randomDelay cfg.delays.betweenActions r }

/-- One scheduler call in a session history: a `beforeAction` arriving at
clock time `now`, or an `afterAction` arriving at `now` with random draw
`r`. -/
inductive SessEvent where
  | before (now : Int)
  | after (now : Int) (r : ℚ)

/-- State after one scheduler call. -/
def sessStep (cfg : Config) (st : SessionState) : SessEvent → SessionState
  | .before now => beforeAction cfg st now
  | .after now r => afterAction cfg st now r

/-- The timestamps at which the bracketed actions execute: each
`beforeAction` call permits its action exactly when it returns, i.e. at the
`lastActionTime` it stamps. -/
def actionStamps (cfg : Config) : SessionState → List SessEvent → List Int
  | _, [] => []
  | st, .before now :: es =>
      (beforeAction cfg st now).lastActionTime ::
        actionStamps cfg (beforeAction cfg st now) es
  | st, .after now r :: es => actionStamps cfg (afterAction cfg st now r) es

/-- A physically possible session history: the clock is monotone (every call
arrives no earlier than the last stamped time) and every slept duration is
nonnegative. -/
def ValidTrace (cfg : Config) : SessionState → List SessEvent → Prop
  | _, [] => True
  | st, .before now :: es =>
      st.lastActionTime ≤ now ∧ ValidTrace cfg (beforeAction cfg st now) es
  | st, .after now r :: es =>
      st.lastActionTime ≤ now ∧ 0 ≤ randomDelay cfg.delays.betweenActions r ∧
        ValidTrace cfg (afterAction cfg st now r) es

/-- A concrete configuration for the C5 witness: the defaults of
`loadConfig` with speed factor 1. -/
def c5Config : Config :=
  { delays :=
      { betweenActions := { min := 1500, max := 4000 }
        beforeClick := { min := 300, max := 1200 }
        typingSpeed := { min := 60, max := 180 }
        readingProfile := { min := 6000, max := 18000 }
        afterSearch := { min := 2500, max := 6000 }
        betweenScrolls := { min := 800, max := 2500 }
        microPause := { min := 500, max := 1500 } }
    session := { pauseInterval := 2700000, pauseDuration := 300000 } }

-- ============================================
-- Tool response protocol (src/types.ts) and screenshots (src/browser/index.ts)
-- ============================================
/-- Model of `ToolResponse<T>` from src/types.ts: the tri-state outcome.  A
`needs_human` response carries the reason, a hint, the string the handlers
store under their screenshot field, and the current location. -/
inductive ToolResp (α : Type) where
  | success (data : α)
  | needsHuman (reason : ProblemReason) (hint : String) (screenshotPath : String)
      (currentUrl : String)
  | error (message : String)
deriving DecidableEq, Repr

def ToolResp.isError {α : Type} [DecidableEq α] : ToolResp α → Bool
  | .error _ => true
  | _ => false

/-- The string literal of each `ProblemReason` value in the source. -/
def reasonText : ProblemReason → String
  | .captcha_detected => "captcha_detected"
  | .rate_limited => "rate_limited"
  | .login_required => "login_required"
  | .unexpected_ui => "unexpected_ui"
  | .element_not_found => "element_not_found"
  | .timeout => "timeout"
  | .network_error => "network_error"
  | .navigation_failed => "navigation_failed"

/-- An opaque captured viewport image (the bytes the driver returns). -/
structure Image where
  bytes : List Nat
deriving DecidableEq, Repr

/-- The screenshot artifact store: the files under `SCREENSHOT_DIR`. -/
structure ScreenshotStore where
  files : List (String × Image)
deriving DecidableEq, Repr

def ScreenshotStore.lookup (st : ScreenshotStore) (p : String) : Option Image :=
  (st.files.find? (fun e => e.1 == p)).map Prod.snd

def SCREENSHOT_DIR : String := "/tmp/linkedin-mcp-screenshots"

/-- The file name `BrowserManager.screenshot` builds:
`path.join(SCREENSHOT_DIR, "screenshot-" + Date.now() + ".jpeg")`. -/
def screenshotFilePath (now : Nat) : String :=
  SCREENSHOT_DIR ++ "/screenshot-" ++ toString now ++ ".jpeg"

/-- Model of `BrowserManager.screenshot` from src/browser/index.ts (the
save-to-file version): writes the captured viewport image to a fresh file
under `SCREENSHOT_DIR` and returns the file path (not the image data). -/
def screenshot (store : ScreenshotStore) (now : Nat) (viewport : Image) :
    String × ScreenshotStore :=
  let filepath := screenshotFilePath now
  (filepath, { files := (filepath, viewport) :: store.files })

/-- Model of JavaScript `String.prototype.startsWith`. -/
def jsStartsWith (s pre : String) : Bool := pre.data.isPrefixOf s.data

/-- Model of `createProblemResponse` as defined identically in src/tools/search.ts and
src/tools/connect.ts: takes a screenshot (saved to file), and returns a
`needs_human` response carrying the file path. -/
def createProblemResponse {α : Type} (store : ScreenshotStore) (now : Nat)
    (viewport : Image) (currentUrl : String) (reason : ProblemReason)
    (hint : Option String) : ToolResp α × ScreenshotStore :=
  let (screenshotPath, store') := screenshot store now viewport
  (.needsHuman reason
      (hint.getD ("Problem detected: " ++ reasonText reason ++
        ". Screenshot saved to: " ++ screenshotPath))
      screenshotPath currentUrl,
   store')

/-- Model of `createProblemResponse` from src/tools/profile.ts: same shape, with the
default hint not repeating the path; the value stored under its screenshot
field is again the file path `browser.screenshot(false)` returns. -/
def createProblemResponseProfile {α : Type} (store : ScreenshotStore) (now : Nat)
    (viewport : Image) (currentUrl : String) (reason : ProblemReason)
    (hint : Option String) : ToolResp α × ScreenshotStore :=
  let (screenshotPath, store') := screenshot store now viewport
  (.needsHuman reason
      (hint.getD ("Problem detected: " ++ reasonText reason))
      screenshotPath currentUrl,
   store')

/-- The `needs_human` response built in the catch block of `handleClick`
(src/tools/click.ts). -/
def clickFailureResponse {α : Type} (store : ScreenshotStore) (now : Nat)
    (viewport : Image) (currentUrl : String) (target : String) :
    ToolResp α × ScreenshotStore :=
  let (screenshotPath, store') := screenshot store now viewport
  (.needsHuman .element_not_found
      ("Could not click element: " ++ target ++ ". Screenshot saved to: " ++ screenshotPath)
      screenshotPath currentUrl,
   store')

/-- The `needs_human` response built in the catch block of `handleType`
(src/tools/type.ts). -/
def typeFailureResponse {α : Type} (store : ScreenshotStore) (now : Nat)
    (viewport : Image) (currentUrl : String) (target : String) :
    ToolResp α × ScreenshotStore :=
  let (screenshotPath, store') := screenshot store now viewport
  (.needsHuman .element_not_found
      ("Could not type into element: " ++ target ++ ". Screenshot saved to: " ++ screenshotPath)
      screenshotPath currentUrl,
   store')

/-- The `needs_human` response built by `handleScroll` when the detector
reports a problem (src/tools/scroll.ts). -/
def scrollProblemResponse {α : Type} (store : ScreenshotStore) (now : Nat)
    (viewport : Image) (currentUrl : String) (problem : DetectedProblem) :
    ToolResp α × ScreenshotStore :=
  let (screenshotPath, store') := screenshot store now viewport
  (.needsHuman problem.reason problem.hint screenshotPath currentUrl, store')

-- ============================================
-- linkedin_navigate (src/tools/navigate.ts)
-- ============================================
/-- Model of `NavigateOutput` from src/types.ts. -/
structure NavigateOutput where
  current_url : String
deriving DecidableEq, Repr

/-- The world `handleNavigate` runs against: the outcome of
`browser.navigate` (`none` = success, otherwise the problem it reported),
the page at the handler's own `detectProblems` check, the current URL, and
the screenshot machinery state. -/
structure NavWorld where
  navProblem : Option ProblemReason
  page : PageState
  currentUrl : String
  now : Nat
  viewport : Image
  store : ScreenshotStore
deriving DecidableEq, Repr

/-- Model of `handleNavigate` from src/tools/navigate.ts: LinkedIn-URL validation,
navigation, then a detector check; both failure paths take a screenshot and
return `needs_human` with its path. -/
def handleNavigate (w : NavWorld) (url : String) : ToolResp NavigateOutput × ScreenshotStore :=
  if ¬ strContains url "linkedin.com" then
    (.error "URL must be a LinkedIn URL", w.store)
  else
    match w.navProblem with
    | some problem =>
        let (shot, store') := screenshot w.store w.now w.viewport
        (.needsHuman problem "Navigation failed - check the screenshot" shot w.currentUrl,
         store')
    | none =>
        match detectProblems w.page with
        | some problem =>
            let (shot, store') := screenshot w.store w.now w.viewport
            (.needsHuman problem.reason problem.hint shot w.currentUrl, store')
        | none => (.success { current_url := w.currentUrl }, w.store)

-- ============================================
-- linkedin_search (src/tools/search.ts)
-- ============================================
/-- Model of `SearchResult` from src/types.ts. -/
structure SearchResult where
  name : String
  headline : String
  location : String
  profile_url : String
  connection_degree : String
deriving DecidableEq, Repr

/-- Model of `SearchOutput` from src/types.ts. -/
structure SearchOutput where
  results : List SearchResult
  total_results : Nat
  has_more : Bool
deriving DecidableEq, Repr

/-- Model of JavaScript `str.trim()`. -/
def isJsSpace (c : Char) : Bool := c = ' ' ∨ c = '\t' ∨ c = '\n' ∨ c = '\r'

def jsTrim (s : String) : String :=
  String.mk (((s.data.dropWhile isJsSpace).reverse.dropWhile isJsSpace).reverse)

/-- Model of `normalizeProfileUrl` from src/tools/search.ts. -/
def normalizeProfileUrl (url : String) : String :=
  if jsStartsWith url "/in/" then "https://www.linkedin.com" ++ beforeQuery url
  else if strContains url "linkedin.com/in/" then beforeQuery url
  else url

/-- One search-result DOM item, reduced to the text the parser reads from
it.  `none` models the sub-element being absent or its `textContent` being
null (the source treats both as falsy). -/
structure SearchItem where
  nameText : Option String
  headlineText : Option String
  locationText : Option String
  href : Option String
  degreeText : Option String
deriving DecidableEq, Repr

/-- The per-item body of the `parseSearchResults` loop in
src/tools/search.ts: a result is pushed only when both the trimmed name and
the normalized profile URL are truthy. -/
def parseSearchItem (item : SearchItem) : Option SearchResult :=
  let name := item.nameText.map jsTrim
  let headline := (item.headlineText.map jsTrim).getD ""
  let location := (item.locationText.map jsTrim).getD ""
  let profileUrl := match item.href with
    | some href => normalizeProfileUrl href
    | none => ""
  let connectionDegree := (item.degreeText.map jsTrim).getD ""
  match name with
  | some n =>
      if n ≠ "" ∧ profileUrl ≠ "" then
        some { name := n, headline := headline, location := location,
               profile_url := profileUrl, connection_degree := connectionDegree }
      else none
  | none => none

/-- Model of `parseSearchResults` from src/tools/search.ts: iterates over the first
`Math.min(items.length, limit)` result items and pushes those that parse. -/
def parseSearchResults (items : List SearchItem) (limit : Int) : List SearchResult :=
  (items.take ((min (items.length : Int) limit).toNat)).filterMap parseSearchItem

/-- Model of `input.limit = Math.min((args.limit as number) || 10, 25)` from
`handleSearch`: a missing, zero or NaN argument defaults to 10, then the
value is capped at 25 (larger arguments are silently clamped, smaller ones
— including negative ones — pass through). -/
def searchLimitArg (l : Option Int) : Int :=
  min (match l with
       | none => 10
       | some v => if v = 0 then 10 else v) 25

/-- Model of `const limit = input.limit || 10` from `handleSearch` (a second,
provably redundant defaulting step). -/
def searchLimitUsed (l : Option Int) : Int :=
  let inputLimit := searchLimitArg l
  if inputLimit = 0 then 10 else inputLimit

/-- The world `handleSearch` runs against. -/
structure SearchWorld where
  navProblem : Option ProblemReason
  page : PageState
  hasResults : Bool
  noResults : Bool
  items : List SearchItem
  currentUrl : String
  now : Nat
  viewport : Image
  store : ScreenshotStore
deriving DecidableEq, Repr

/-- Model of `handleSearch` from src/tools/search.ts, with the navigation outcome,
detector page, waits and result items supplied by the world.  The limit
argument is the only input the claims depend on (the query only feeds the
navigated URL, whose outcome `navProblem` already abstracts). -/
def handleSearch (w : SearchWorld) (limitArg : Option Int) :
    ToolResp SearchOutput × ScreenshotStore :=
  let limit := searchLimitUsed limitArg
  match w.navProblem with
  | some problem => createProblemResponse w.store w.now w.viewport w.currentUrl problem none
  | none =>
    match detectProblems w.page with
    | some problem =>
        createProblemResponse w.store w.now w.viewport w.currentUrl problem.reason
          (some problem.hint)
    | none =>
      if ¬ w.hasResults then
        if w.noResults then
          (.success { results := [], total_results := 0, has_more := false }, w.store)
        else
          createProblemResponse w.store w.now w.viewport w.currentUrl .unexpected_ui
            (some "Search results container not found")
      else
        let results := parseSearchResults w.items limit
        (.success { results := results, total_results := results.length,
                    has_more := decide (limit ≤ (results.length : Int)) },
         w.store)

-- ============================================
-- linkedin_send_connection (src/tools/connect.ts)
-- ============================================
/-- Model of `ConnectionStatus` from src/types.ts. -/
inductive ConnectionStatus where
  | conn_success
  | conn_needs_human
  | already_connected
  | pending
  | limit_reached
deriving DecidableEq, Repr

/-- Model of `ConnectionOutput` from src/types.ts. -/
structure ConnectionOutput where
  status : ConnectionStatus
  message : String
deriving DecidableEq, Repr

/-- The page interactions `handleConnect` can perform on the target site. -/
inductive CAction where
  | navigate
  | clickConnect
  | clickMore
  | clickConnectDropdown
  | clickAddNote
  | typeNote
  | clickSend
deriving DecidableEq, Repr

/-- Result of a `handleConnect` run: the response, the screenshot store, and
the ordered trace of page interactions performed. -/
structure ConnResult where
  resp : ToolResp ConnectionOutput
  store : ScreenshotStore
  trace : List CAction
deriving DecidableEq, Repr

/-- The world `handleConnect` runs against: each `await`ed page query is an
input, in the order the handler performs them.  `pageAfterNav` is the page
at the handler's `detectProblems` check; `pageAfterConnect` is the page at
the `hasRateLimit` check after the Connect click opened the invitation
modal. -/
structure ConnectWorld where
  alreadyOnProfile : Bool
  navProblem : Option ProblemReason
  pageAfterNav : PageState
  messageButtonVisible : Bool
  pendingButtonVisible : Bool
  connectButtonVisible : Bool
  connectButtonAlt1Visible : Bool
  connectButtonAlt2Visible : Bool
  moreButtonVisible : Bool
  connectInDropdownVisible : Bool
  pageAfterConnect : PageState
  addNoteButtonVisible : Bool
  noteTextareaFound : Bool
  sendButtonFound : Bool
  modalStillOpen : Bool
  errorMsgText : Option String
  currentUrl : String
  now : Nat
  viewport : Image
  store : ScreenshotStore
deriving DecidableEq, Repr

/-- Model of `if (input.message && input.message.length > 300)` from
src/tools/connect.ts. -/
def messageTooLong (message : Option String) : Bool :=
  match message with
  | some m => decide (m ≠ "") && decide (300 < m.length)
  | none => false

/-- JavaScript truthiness of the optional message, as `handleConnect` tests
it (`if (input.message)`). -/
def messageTruthy (message : Option String) : Bool :=
  match message with
  | some m => decide (m ≠ "")
  | none => false

def connectProblem (w : ConnectWorld) (reason : ProblemReason) (hint : Option String)
    (tr : List CAction) : ConnResult :=
  let (resp, store') :=
    createProblemResponse (α := ConnectionOutput) w.store w.now w.viewport w.currentUrl
      reason hint
  { resp := resp, store := store', trace := tr }

/-- The add-a-note block of `handleConnect` (src/tools/connect.ts): the page
interactions it performs when a message was supplied. -/
def noteActions (w : ConnectWorld) (message : Option String) : List CAction :=
  if messageTruthy message then
    (if w.addNoteButtonVisible then
       [.clickAddNote] ++ (if w.noteTextareaFound then [.typeNote] else [])
     else [])
  else []

/-- The Send block of `handleConnect` (src/tools/connect.ts): locate the
Send button (`element_not_found` if missing), click it, and verify via the
modal/error-message checks. -/
def sendAndVerify (w : ConnectWorld) (message : Option String)
    (tr2 : List CAction) : ConnResult :=
  if ¬ w.sendButtonFound then
    connectProblem w .element_not_found (some "Send button not found in invitation modal") tr2
  else
    let tr3 := tr2 ++ [.clickSend]
    let okData : ConnectionOutput :=
      { status := .conn_success
        message := if messageTruthy message then "Connection sent with note"
                   else "Connection sent" }
    let okResp : ConnResult := { resp := .success okData, store := w.store, trace := tr3 }
    if w.modalStillOpen then
      match w.errorMsgText with
      | some errorText =>
          { resp := .error ("Connection failed: " ++ errorText), store := w.store,
            trace := tr3 }
      | none => okResp
    else okResp

/-- The tail of `handleConnect` after the Connect button was clicked
(src/tools/connect.ts, from the `hasRateLimit` check on): on a positive
rate-limit signal the handler returns the limit outcome at once, performing
no further page interaction; otherwise it optionally adds the note, then
clicks Send and verifies. -/
def afterConnectClicked (w : ConnectWorld) (message : Option String)
    (tr : List CAction) : ConnResult :=
  if hasRateLimit w.pageAfterConnect then
    let data : ConnectionOutput :=
      { status := .limit_reached
        message := "Weekly invitation limit reached. Try again next week." }
    { resp := .success data, store := w.store, trace := tr }
  else
    sendAndVerify w message (tr ++ noteActions w message)

/-- The part of `handleConnect` from the `detectProblems` check on. -/
def handleConnectOnPage (w : ConnectWorld) (message : Option String)
    (tr : List CAction) : ConnResult :=
  match detectProblems w.pageAfterNav with
  | some problem => connectProblem w problem.reason (some problem.hint) tr
  | none =>
    if w.messageButtonVisible then
      let data : ConnectionOutput :=
        { status := .already_connected, message := "Already connected with this person" }
      { resp := .success data, store := w.store, trace := tr }
    else if w.pendingButtonVisible then
      let data : ConnectionOutput :=
        { status := .pending, message := "Connection request already pending" }
      { resp := .success data, store := w.store, trace := tr }
    else if w.connectButtonVisible || w.connectButtonAlt1Visible || w.connectButtonAlt2Visible then
      afterConnectClicked w message (tr ++ [.clickConnect])
    else if w.moreButtonVisible then
      if w.connectInDropdownVisible then
        afterConnectClicked w message (tr ++ [.clickMore, .clickConnectDropdown])
      else
        connectProblem w .element_not_found
          (some "Connect button not found. Profile may not allow connections or UI has changed.")
          (tr ++ [.clickMore])
    else
      connectProblem w .element_not_found
        (some "Connect button not found. Profile may not allow connections or UI has changed.")
        tr

/-- Model of `handleConnect` from src/tools/connect.ts: message-length validation
first (before any page interaction), then navigation to the profile if not
already there, then the detector check and the connect flow. -/
def handleConnect (w : ConnectWorld) (message : Option String) : ConnResult :=
  if messageTooLong message then
    { resp := .error "Message too long. Maximum 300 characters allowed."
      store := w.store, trace := [] }
  else if w.alreadyOnProfile then
    handleConnectOnPage w message []
  else
    match w.navProblem with
    | some problem => connectProblem w problem none [.navigate]
    | none => handleConnectOnPage w message [.navigate]

-- ============================================
-- linkedin_get_profile (src/tools/profile.ts)
-- ============================================
/-- Model of `Experience` from src/types.ts. -/
structure Experience where
  title : String
  company : String
  duration : String
  is_current : Bool
deriving DecidableEq, Repr

/-- One experience DOM item, reduced to the text the parser reads. -/
structure ExpItem where
  titleText : Option String
  companyText : Option String
  durationText : Option String
deriving DecidableEq, Repr

/-- The `isCurrent` computation of the `parseExperience` loop in
src/tools/profile.ts: the duration text (lower-cased) contains `present` or
`obecnie`, or the item is at index 0 of the experience DOM list. -/
def expIsCurrent (i : Nat) (item : ExpItem) : Bool :=
  (match item.durationText.map jsTrim with
   | some duration =>
       strContains (jsToLower duration) "present" || strContains (jsToLower duration) "obecnie"
   | none => false) || decide (i = 0)

/-- The push condition `if (title || company)` of the `parseExperience`
loop. -/
def expKeep (item : ExpItem) : Bool :=
  (match item.titleText.map jsTrim with
   | some title => decide (title ≠ "")
   | none => false) ||
  (match item.companyText.map jsTrim with
   | some company => decide (company ≠ "")
   | none => false)

/-- The `Experience` pushed for one item. -/
def mkExperience (i : Nat) (item : ExpItem) : Experience :=
  { title := (item.titleText.map jsTrim).getD ""
    company := (item.companyText.map jsTrim).getD ""
    duration := (item.durationText.map jsTrim).getD ""
    is_current := expIsCurrent i item }

def parseExperienceAux : Nat → List ExpItem → List Experience
  | _, [] => []
  | i, item :: rest =>
      if expKeep item then mkExperience i item :: parseExperienceAux (i + 1) rest
      else parseExperienceAux (i + 1) rest

/-- Model of `parseExperience` from src/tools/profile.ts: the loop runs over
`Math.min(expItems.length, 5)` items. -/
def parseExperience (items : List ExpItem) : List Experience :=
  parseExperienceAux 0 (items.take 5)

/-- Model of JavaScript `str.split(pat)` for a nonempty pattern, via a fuel
bound (the string length bounds the number of splits). -/
def jsSplitGo (pat : List Char) : Nat → List Char → List (List Char)
  | 0, l => [l]
  | fuel + 1, l =>
      match (List.range (l.length + 1)).find? (fun i => pat.isPrefixOf (l.drop i)) with
      | some i => l.take i :: jsSplitGo pat fuel (l.drop (i + pat.length))
      | none => [l]

def jsSplit (s pat : String) : List String :=
  (jsSplitGo pat.data (s.data.length + 1) s.data).map String.mk

/-- Model of `ProfileData` from src/types.ts (the always-present fields; the optional
contact fields are filled in outside `parseProfileData`). -/
structure ProfileData where
  first_name : String
  last_name : String
  full_name : String
  headline : String
  location : String
  current_company : String
  current_position : String
  about : String
  experience : List Experience
  connection_degree : String
  profile_url : String
deriving DecidableEq, Repr

/-- The profile page, reduced to the text `parseProfileData` reads. -/
structure ProfilePage where
  nameText : Option String
  headlineText : Option String
  locationText : Option String
  aboutText : Option String
  expItems : List ExpItem
  degreeText : Option String
  currentUrl : String
deriving DecidableEq, Repr

/-- The current-position extraction of `parseProfileData`
(src/tools/profile.ts): the first experience marked current wins; otherwise
the headline is split on `" at "`.  Returns
`(currentCompany, currentPosition)`. -/
def currentFromExperience (headline : String) (experience : List Experience) :
    String × String :=
  match experience.find? (fun e => e.is_current) with
  | some currentExp => (currentExp.company, currentExp.title)
  | none =>
    let parts := jsSplit headline " at "
    if 2 ≤ parts.length then
      (jsTrim ((parts.get? 1).getD ""), jsTrim ((parts.get? 0).getD ""))
    else
      ("", headline)

/-- Model of `parseProfileData` from src/tools/profile.ts. -/
def parseProfileData (pp : ProfilePage) : ProfileData :=
  let fullName := (pp.nameText.map jsTrim).getD ""
  let nameParts := jsSplit fullName " "
  let firstName := (nameParts.get? 0).getD ""
  let lastName := String.intercalate " " (nameParts.drop 1)
  let headline := (pp.headlineText.map jsTrim).getD ""
  let location := (pp.locationText.map jsTrim).getD ""
  let fullAbout := (pp.aboutText.map jsTrim).getD ""
  let about := if 500 < fullAbout.length
    then String.mk (fullAbout.data.take 500) ++ "..." else fullAbout
  let experience := parseExperience pp.expItems
  let current := currentFromExperience headline experience
  let connectionDegree := (pp.degreeText.map jsTrim).getD ""
  { first_name := firstName
    last_name := lastName
    full_name := fullName
    headline := headline
    location := location
    current_company := current.1
    current_position := current.2
    about := about
    experience := experience
    connection_degree := connectionDegree
    profile_url := pp.currentUrl }

/-- An all-benign world for concrete `handleConnect` runs. -/
def emptyPage : PageState := { url := "", elems := [], bodyText := none }

def c3World : ConnectWorld :=
  { alreadyOnProfile := true
    navProblem := none
    pageAfterNav := emptyPage
    messageButtonVisible := false
    pendingButtonVisible := false
    connectButtonVisible := true
    connectButtonAlt1Visible := false
    connectButtonAlt2Visible := false
    moreButtonVisible := false
    connectInDropdownVisible := false
    pageAfterConnect := emptyPage
    addNoteButtonVisible := false
    noteTextareaFound := false
    sendButtonFound := true
    modalStillOpen := false
    errorMsgText := none
    currentUrl := "https://www.linkedin.com/in/someone"
    now := 7
    viewport := { bytes := [1, 2, 3] }
    store := { files := [] } }

def c3Message : String := String.mk (List.replicate 301 'a')

-- ============================================
-- Claim C2
-- ============================================
/-- The response the handler returns when the rate-limit signal is positive
after the Connect click. -/
def limitReachedResp : ToolResp ConnectionOutput :=
  .success { status := .limit_reached
             message := "Weekly invitation limit reached. Try again next week." }

/-- A page showing the weekly-invitation-limit banner text. -/
def c2LimitPage : PageState :=
  { url := "https://www.linkedin.com/in/someone"
    elems := []
    bodyText := some ("You" ++ apo ++ "ve reached the weekly invitation limit") }

def c2World : ConnectWorld := { c3World with pageAfterConnect := c2LimitPage }

-- ============================================
-- Claim C4
-- ============================================
/-- Every `needs_human` result of `handleConnect` carries the screenshot
file path generated for this run, under which the captured viewport image
is retrievable from the artifact store. -/
def EvidenceOk (w : ConnectWorld) (res : ConnResult) : Prop :=
  ∀ (reason : ProblemReason) (hint shot curl : String),
    res.resp = .needsHuman reason hint shot curl →
    shot = screenshotFilePath w.now ∧ res.store.lookup shot = some w.viewport

def c4NavWorld : NavWorld :=
  { navProblem := some .navigation_failed
    page := emptyPage
    currentUrl := "https://www.linkedin.com/feed"
    now := 7
    viewport := { bytes := [1, 2, 3] }
    store := { files := [] } }

-- ============================================
-- Claim C7
-- ============================================
/-- A benign search world: navigation succeeds, no problem is detected, the
results container is absent but the no-results marker is visible. -/
def c7World : SearchWorld :=
  { navProblem := none
    page := { url := "https://www.linkedin.com/search/results/people/", elems := [],
              bodyText := none }
    hasResults := false
    noResults := true
    items := []
    currentUrl := "https://www.linkedin.com/search/results/people/"
    now := 7
    viewport := { bytes := [1, 2, 3] }
    store := { files := [] } }

-- ============================================
-- Claim C9
-- ============================================
/-- A search world that reaches the main parsing branch with no items. -/
def c9World : SearchWorld :=
  { navProblem := none
    page := { url := "https://www.linkedin.com/search/results/people/", elems := [],
              bodyText := none }
    hasResults := true
    noResults := false
    items := []
    currentUrl := "https://www.linkedin.com/search/results/people/"
    now := 7
    viewport := { bytes := [1, 2, 3] }
    store := { files := [] } }

-- ============================================
-- Claim C10
-- ============================================
/-- A profile page whose first experience DOM item yields neither a title
nor a company (so it is skipped), whose second item is a past position, and
whose headline has the `X at Y` shape. -/
def c10Page : ProfilePage :=
  { nameText := some "Jan Kowalski"
    headlineText := some "Dev at Acme"
    locationText := some "Warsaw"
    aboutText := none
    expItems :=
      [{ titleText := none, companyText := none, durationText := none },
       { titleText := some "Engineer", companyText := some "Beta",
         durationText := some "2019 - 2020" }]
    degreeText := some "2nd"
    currentUrl := "https://www.linkedin.com/in/jankowalski" }

/-- The phrase test the `isCurrent` computation applies to a duration
text. -/
def durationMarksCurrent (durationText : Option String) : Bool :=
  match durationText.map jsTrim with
  | some duration =>
      strContains (jsToLower duration) "present" || strContains (jsToLower duration) "obecnie"
  | none => false

/-- A page whose first experience item parses. -/
def c10GoodPage : ProfilePage :=
  { c10Page with expItems :=
      [{ titleText := some "CTO", companyText := some "Acme",
         durationText := some "2020 - obecnie" },
       { titleText := some "Engineer", companyText := some "Beta",
         durationText := some "2019 - 2020" }] }

-- ============================================
-- Theorems
-- ============================================

-- ============================================
-- Claim C1
-- ============================================
/-- C1: `ProblemDetector.detectProblems` evaluates the three adverse-state
checks with strict precedence login-wall > CAPTCHA > rate-limit and returns
the problem of the first positive check; in particular a page satisfying both
a login-wall condition and a CAPTCHA condition is classified
`login_required`, never `captcha_detected`. -/
theorem c1_detector_precedence (p : PageState)
    (hlogin : detectLoginRequired p = true)
    (hcaptcha : detectCaptcha p = true) :
    (detectProblems p).map DetectedProblem.reason = some .login_required ∧
    (detectProblems p).map DetectedProblem.reason ≠ some .captcha_detected ∧
    (∀ q : PageState, detectLoginRequired q = false → detectCaptcha q = true →
      (detectProblems q).map DetectedProblem.reason = some .captcha_detected) ∧
    (∀ q : PageState, detectLoginRequired q = false → detectCaptcha q = false →
      detectRateLimit q = true →
      (detectProblems q).map DetectedProblem.reason = some .rate_limited) ∧
    (∀ q : PageState, detectLoginRequired q = false → detectCaptcha q = false →
      detectRateLimit q = false → detectProblems q = none) := by
  refine ⟨?_, ?_, ?_, ?_, ?_⟩
  · simp [detectProblems, hlogin]
  · simp [detectProblems, hlogin]
  · intro q h1 h2
    simp [detectProblems, h1, h2]
  · intro q h1 h2 h3
    simp [detectProblems, h1, h2, h3]
  · intro q h1 h2 h3
    simp [detectProblems, h1, h2, h3]

theorem c1_detector_precedence_witness :
    detectLoginRequired c1Page = true ∧ detectCaptcha c1Page = true ∧
    (detectProblems c1Page).map DetectedProblem.reason = some .login_required := by
  refine ⟨by decide, by decide, (c1_detector_precedence c1Page (by decide) (by decide)).1⟩

/-- The value `randomBetween` produces always lies in `[lo, hi]` when the
range is nonempty and the random draw is in `[0, 1)`. -/
theorem randomBetween_mem (lo hi : Int) (r : ℚ)
    (hlohi : lo ≤ hi) (hr0 : 0 ≤ r) (hr1 : r < 1) :
    lo ≤ randomBetween lo hi r ∧ randomBetween lo hi r ≤ hi := by
  have hn : (0 : ℚ) < (hi : ℚ) - (lo : ℚ) + 1 := by
    have : (lo : ℚ) ≤ (hi : ℚ) := by exact_mod_cast hlohi
    linarith
  constructor
  · have h0 : (0 : Int) ≤ ⌊r * ((hi : ℚ) - (lo : ℚ) + 1)⌋ :=
      Int.floor_nonneg.mpr (mul_nonneg hr0 (le_of_lt hn))
    simpa [randomBetween] using by omega
  · have hlt : r * ((hi : ℚ) - (lo : ℚ) + 1) < (hi : ℚ) - (lo : ℚ) + 1 := by
      calc r * ((hi : ℚ) - (lo : ℚ) + 1) < 1 * ((hi : ℚ) - (lo : ℚ) + 1) := by
            exact mul_lt_mul_of_pos_right hr1 hn
        _ = (hi : ℚ) - (lo : ℚ) + 1 := by ring
    have hfl : ⌊r * ((hi : ℚ) - (lo : ℚ) + 1)⌋ < hi - lo + 1 := by
      apply Int.floor_lt.mpr
      push_cast
      linarith
    simp only [randomBetween]
    omega

-- ============================================
-- Claim C6
-- ============================================
/-- C6 counterexample: with the session speed factor 0.7001 (a legal draw
from [0.7, 1.3]) and the configured `beforeClick` base range {300, 1200},
the generated delay can be 210 ms, which is strictly below
min·factor = 210.03: the claim's interval `[min·factor, max·factor]` does
not contain every generated value, because the endpoints are rounded at
configuration-load time. -/
theorem c6_counterexample :
    7/10 ≤ sessionSpeedFactor (1/6000) ∧ sessionSpeedFactor (1/6000) ≤ 13/10 ∧
    (0 : ℚ) ≤ 0 ∧ (0 : ℚ) < 1 ∧
    randomDelay (applyFactor (sessionSpeedFactor (1/6000)) { min := 300, max := 1200 }) 0 = 210 ∧
    (210 : ℚ) < (300 : ℚ) * sessionSpeedFactor (1/6000) := by
  have hf : sessionSpeedFactor (1/6000) = 7001/10000 := by
    norm_num [sessionSpeedFactor]
  refine ⟨by rw [hf]; norm_num, by rw [hf]; norm_num, le_refl 0, by norm_num, ?_, ?_⟩
  · have h1 : jsRound ((300 : ℚ) * (7001/10000)) = 210 := by
      rw [jsRound, Int.floor_eq_iff]
      norm_num
    have h2 : jsRound ((1200 : ℚ) * (7001/10000)) = 840 := by
      rw [jsRound, Int.floor_eq_iff]
      norm_num
    rw [hf]
    simp only [randomDelay, applyFactor]
    rw [show ((300 : Int) : ℚ) = (300 : ℚ) by norm_num,
        show ((1200 : Int) : ℚ) = (1200 : ℚ) by norm_num, h1, h2]
    simp only [randomBetween]
    norm_num
  · rw [hf]; norm_num

/-- C6 amended: for every configured delay range and every nonnegative speed
factor (written as a fraction of naturals), every delay generated from the
scaled range lies within `[round(min·factor), round(max·factor)]` — the
closed interval whose endpoints are the configured endpoints scaled by the
session speed factor and rounded (as `loadConfig` stores them); each rounded
endpoint is within 1/2 of the exact product. -/
theorem c6_scaled_delay_bounds (c : DelayConfig) (fn fd rn rd : Nat)
    (hmm : c.min ≤ c.max) (hfd : 0 < fd) (hrn : rn < rd) :
    jsRound ((c.min : ℚ) * ((fn : ℚ) / (fd : ℚ))) ≤
      randomDelay (applyFactor ((fn : ℚ) / (fd : ℚ)) c) ((rn : ℚ) / (rd : ℚ)) ∧
    randomDelay (applyFactor ((fn : ℚ) / (fd : ℚ)) c) ((rn : ℚ) / (rd : ℚ)) ≤
      jsRound ((c.max : ℚ) * ((fn : ℚ) / (fd : ℚ))) ∧
    ((jsRound ((c.min : ℚ) * ((fn : ℚ) / (fd : ℚ))) : ℚ) - (c.min : ℚ) * ((fn : ℚ) / (fd : ℚ))) ≤ 1/2 ∧
    ((c.min : ℚ) * ((fn : ℚ) / (fd : ℚ)) - (jsRound ((c.min : ℚ) * ((fn : ℚ) / (fd : ℚ))) : ℚ)) < 1/2 := by
  have hf0 : (0 : ℚ) ≤ (fn : ℚ) / (fd : ℚ) := by positivity
  have hrd : (0 : ℚ) < (rd : ℚ) := by exact_mod_cast Nat.zero_lt_of_lt hrn
  have hr0 : (0 : ℚ) ≤ (rn : ℚ) / (rd : ℚ) := by positivity
  have hr1 : (rn : ℚ) / (rd : ℚ) < 1 := by
    rw [div_lt_one hrd]
    exact_mod_cast hrn
  have hscaled : jsRound ((c.min : ℚ) * ((fn : ℚ) / (fd : ℚ))) ≤
      jsRound ((c.max : ℚ) * ((fn : ℚ) / (fd : ℚ))) := by
    apply Int.floor_le_floor
    have : (c.min : ℚ) ≤ (c.max : ℚ) := by exact_mod_cast hmm
    nlinarith
  have hmem := randomBetween_mem (jsRound ((c.min : ℚ) * ((fn : ℚ) / (fd : ℚ))))
      (jsRound ((c.max : ℚ) * ((fn : ℚ) / (fd : ℚ)))) ((rn : ℚ) / (rd : ℚ))
      hscaled hr0 hr1
  refine ⟨hmem.1, hmem.2, ?_, ?_⟩
  · have := Int.floor_le ((c.min : ℚ) * ((fn : ℚ) / (fd : ℚ)) + 1/2)
    simp only [jsRound]
    linarith
  · have := Int.lt_floor_add_one ((c.min : ℚ) * ((fn : ℚ) / (fd : ℚ)) + 1/2)
    simp only [jsRound]
    linarith

theorem c6_scaled_delay_bounds_witness :
    ((1000 : Int) ≤ 3000 ∧ 0 < 10 ∧ 0 < 2) ∧
    (jsRound ((1000 : ℚ) * ((7 : ℚ) / (10 : ℚ))) ≤
      randomDelay (applyFactor ((7 : ℚ) / (10 : ℚ)) { min := 1000, max := 3000 }) ((0 : ℚ) / (2 : ℚ))) :=
  ⟨⟨by decide, by decide, by decide⟩,
   (c6_scaled_delay_bounds { min := 1000, max := 3000 } 7 10 0 2
      (by decide) (by decide) (by decide)).1⟩

theorem bezierCurve_one (p0 p1 p2 p3 : ℚ) : bezierCurve 1 p0 p1 p2 p3 = p3 := by
  simp only [bezierCurve]
  ring

/-- The last point of a generated path of `steps ≥ 1` steps is exactly the
requested end point, for every choice of the random control-point
perturbations. -/
theorem generatePath_getLast (start endp : Point) (steps : Nat) (r1x r1y r2x r2y : ℚ)
    (hsteps : 1 ≤ steps) :
    (generatePath start endp steps r1x r1y r2x r2y).getLast? = some endp := by
  simp only [generatePath, List.range_succ, List.map_append, List.map_cons, List.map_nil]
  rw [List.getLast?_concat]
  have ht : ((steps : ℚ) / (steps : ℚ)) = 1 := by
    apply div_self
    have : (0 : ℚ) < (steps : ℚ) := by exact_mod_cast Nat.lt_of_lt_of_le Nat.zero_lt_one hsteps
    exact ne_of_gt this
  rw [ht, bezierCurve_one, bezierCurve_one]

-- ============================================
-- Claim C8
-- ============================================
/-- C8: for every pointer move, `humanMouseMove` synthesizes a multi-step
path — the step count `randomBetween(15, 30)` lies in [15, 30] and the
emitted path samples the cubic Bézier curve at the `steps + 1` parameters
`t = i / steps` — and its final emitted point equals the jittered target
exactly: the Bézier curve at `t = 1` equals its end point for **every**
choice of the two randomly perturbed control points (stated both as the
`bezierCurve 1` identity and for the last element of the emitted path).
The step-count random draw is written as the fraction `sn/sd ∈ [0, 1)`;
the start point is universally quantified, covering both the
current-position and random-edge-start cases of the source. -/
theorem c8_human_mouse_move_terminates (start : Point) (targetX targetY : ℚ)
    (rjx rjy r1x r1y r2x r2y : ℚ) (sn sd : Nat) (hsn : sn < sd) :
    15 ≤ (randomBetween 15 30 ((sn : ℚ) / (sd : ℚ))).toNat ∧
    (randomBetween 15 30 ((sn : ℚ) / (sd : ℚ))).toNat ≤ 30 ∧
    (humanMouseMove start targetX targetY rjx rjy ((sn : ℚ) / (sd : ℚ))
        r1x r1y r2x r2y).length =
      (randomBetween 15 30 ((sn : ℚ) / (sd : ℚ))).toNat + 1 ∧
    (∀ p0 p1 p2 p3 : ℚ, bezierCurve 1 p0 p1 p2 p3 = p3) ∧
    (humanMouseMove start targetX targetY rjx rjy ((sn : ℚ) / (sd : ℚ))
        r1x r1y r2x r2y).getLast? = some (jitteredTarget targetX targetY rjx rjy) := by
  have hsd : (0 : ℚ) < (sd : ℚ) := by exact_mod_cast Nat.zero_lt_of_lt hsn
  have hr0 : (0 : ℚ) ≤ (sn : ℚ) / (sd : ℚ) := by positivity
  have hr1 : (sn : ℚ) / (sd : ℚ) < 1 := by
    rw [div_lt_one hsd]
    exact_mod_cast hsn
  have hmem := randomBetween_mem 15 30 ((sn : ℚ) / (sd : ℚ)) (by omega) hr0 hr1
  have h15 : 15 ≤ (randomBetween 15 30 ((sn : ℚ) / (sd : ℚ))).toNat := by omega
  have h30 : (randomBetween 15 30 ((sn : ℚ) / (sd : ℚ))).toNat ≤ 30 := by omega
  refine ⟨h15, h30, ?_, fun p0 p1 p2 p3 => bezierCurve_one p0 p1 p2 p3, ?_⟩
  · simp [humanMouseMove, generatePath]
  · simp only [humanMouseMove]
    exact generatePath_getLast _ _ _ _ _ _ _ (by omega)

theorem c8_human_mouse_move_terminates_witness :
    (0 : Nat) < 1 ∧
    (humanMouseMove { x := 100, y := 100 } 640 400 0 0 ((0 : ℚ) / (1 : ℚ))
        0 0 0 0).getLast? = some (jitteredTarget 640 400 0 0) :=
  ⟨by decide,
   (c8_human_mouse_move_terminates { x := 100, y := 100 } 640 400 0 0 0 0 0 0 0 1
      (by decide)).2.2.2.2⟩

/-- The modelled `beforeAction` never stamps a time less than the configured floor after
the previous stamp. -/
theorem beforeAction_stamp_lb (cfg : Config) (st : SessionState) (now : Int)
    (harrive : st.lastActionTime ≤ now) (hpause : 0 ≤ cfg.session.pauseDuration) :
    st.lastActionTime + cfg.delays.betweenActions.min ≤
      (beforeAction cfg st now).lastActionTime := by
  simp only [beforeAction]
  split_ifs <;> omega

theorem actionStamps_chain (cfg : Config) (st : SessionState) (evs : List SessEvent)
    (hpause : 0 ≤ cfg.session.pauseDuration) (hvalid : ValidTrace cfg st evs) :
    List.Chain' (fun a b => a + cfg.delays.betweenActions.min ≤ b)
      (actionStamps cfg st evs) ∧
    (∀ x ∈ (actionStamps cfg st evs).head?,
      st.lastActionTime + cfg.delays.betweenActions.min ≤ x) := by
  induction evs generalizing st with
  | nil => simp [actionStamps]
  | cons e es ih =>
    cases e with
    | before now =>
      obtain ⟨harrive, hrest⟩ := hvalid
      obtain ⟨hchain, hhead⟩ := ih (beforeAction cfg st now) hrest
      have hlb := beforeAction_stamp_lb cfg st now harrive hpause
      refine ⟨?_, ?_⟩
      · rw [actionStamps, List.chain'_cons']
        exact ⟨fun y hy => hhead y hy, hchain⟩
      · intro x hx
        simp only [actionStamps, List.head?_cons, Option.mem_def, Option.some.injEq] at hx
        omega
    | after now r =>
      obtain ⟨harrive, hdelay, hrest⟩ := hvalid
      obtain ⟨hchain, hhead⟩ := ih (afterAction cfg st now r) hrest
      refine ⟨hchain, ?_⟩
      intro x hx
      have hx' := hhead x hx
      simp only [afterAction] at hx'
      omega

-- ============================================
-- Claim C5
-- ============================================
/-- C5: over any physically possible session history in which every action
is bracketed by `beforeAction`/`afterAction`, the timestamps of consecutive
actions differ by at least the configured minimum between-actions delay:
whenever the gap since the last action is shorter than the floor,
`beforeAction` sleeps the remainder before permitting the action. -/
theorem c5_before_action_min_gap (cfg : Config) (st : SessionState)
    (evs : List SessEvent) (hpause : 0 ≤ cfg.session.pauseDuration)
    (hvalid : ValidTrace cfg st evs) :
    List.Chain' (fun a b => a + cfg.delays.betweenActions.min ≤ b)
      (actionStamps cfg st evs) :=
  (actionStamps_chain cfg st evs hpause hvalid).1

/-- A three-action history: actions arrive in a tight burst (gaps of 1 ms),
so `beforeAction` has to sleep; the resulting stamps still satisfy the
floor. -/
theorem c5_before_action_min_gap_witness :
    (0 : Int) ≤ c5Config.session.pauseDuration ∧
    List.Chain' (fun a b => a + c5Config.delays.betweenActions.min ≤ b)
      (actionStamps c5Config { lastActionTime := 0, actionsCount := 0, sessionStartTime := 0 }
        [.before 1, .before 1501, .before 3001]) :=
  ⟨by decide,
   c5_before_action_min_gap c5Config
     { lastActionTime := 0, actionsCount := 0, sessionStartTime := 0 }
     [.before 1, .before 1501, .before 3001] (by decide)
     ⟨by decide, by decide, by decide, trivial⟩⟩

-- ============================================
-- Claim C3
-- ============================================
/-- C3: a `linkedin_send_connection` invocation whose message is longer than
300 characters is rejected with an `Error` outcome before any navigation:
the returned trace of page interactions is empty and the screenshot store is
untouched. -/
theorem c3_message_length_validated_first (w : ConnectWorld) (m : String)
    (hlen : 300 < m.length) :
    handleConnect w (some m) =
      { resp := .error "Message too long. Maximum 300 characters allowed."
        store := w.store, trace := [] } := by
  have hne : m ≠ "" := by
    intro he
    rw [he] at hlen
    simp [String.length] at hlen
  simp [handleConnect, messageTooLong, hne, hlen]

set_option maxRecDepth 8192 in
theorem c3_message_length_validated_first_witness :
    300 < c3Message.length ∧
    handleConnect c3World (some c3Message) =
      { resp := .error "Message too long. Maximum 300 characters allowed."
        store := c3World.store, trace := [] } :=
  ⟨by decide, c3_message_length_validated_first c3World c3Message (by decide)⟩

theorem afterConnectClicked_rateLimit (w : ConnectWorld) (message : Option String)
    (tr : List CAction) (hrl : hasRateLimit w.pageAfterConnect = true) :
    afterConnectClicked w message tr =
      { resp := limitReachedResp, store := w.store, trace := tr } := by
  simp [afterConnectClicked, hrl, limitReachedResp]

theorem handleConnectOnPage_rateLimit (w : ConnectWorld) (message : Option String)
    (tr0 : List CAction) (hrl : hasRateLimit w.pageAfterConnect = true)
    (hsend : CAction.clickSend ∉ tr0) (hconn : CAction.clickConnect ∉ tr0)
    (hdrop : CAction.clickConnectDropdown ∉ tr0) :
    CAction.clickSend ∉ (handleConnectOnPage w message tr0).trace ∧
    ((CAction.clickConnect ∈ (handleConnectOnPage w message tr0).trace ∨
      CAction.clickConnectDropdown ∈ (handleConnectOnPage w message tr0).trace) →
      (handleConnectOnPage w message tr0).resp = limitReachedResp) := by
  have hac := afterConnectClicked_rateLimit w message
  unfold handleConnectOnPage
  cases hdp : detectProblems w.pageAfterNav with
  | some problem =>
    simp only [connectProblem, createProblemResponse, screenshot]
    refine ⟨hsend, ?_⟩
    rintro (h | h)
    · exact absurd h hconn
    · exact absurd h hdrop
  | none =>
    simp only []
    split_ifs with h1 h2 h3 h4 h5 <;>
      simp_all [hac, connectProblem, createProblemResponse, screenshot,
        List.mem_append]

/-- C2: in `linkedin_send_connection`, whenever the rate-limit signal is
positive at the check performed after the Connect click and before the Send
click, the handler reports the limit outcome and never clicks Send — no
state-changing action on the target site occurs after the limit is
detected. -/
theorem c2_rate_limit_before_send (w : ConnectWorld) (message : Option String)
    (hrl : hasRateLimit w.pageAfterConnect = true) :
    CAction.clickSend ∉ (handleConnect w message).trace ∧
    ((CAction.clickConnect ∈ (handleConnect w message).trace ∨
      CAction.clickConnectDropdown ∈ (handleConnect w message).trace) →
      (handleConnect w message).resp = limitReachedResp) := by
  unfold handleConnect
  split_ifs with hlong htere
  · simp
  · exact handleConnectOnPage_rateLimit w message [] hrl (by simp) (by simp) (by simp)
  · cases hnav : w.navProblem with
    | some problem =>
      simp only [connectProblem, createProblemResponse, screenshot]
      constructor
      · simp
      · rintro (h | h) <;> simp at h
    | none =>
      exact handleConnectOnPage_rateLimit w message [.navigate] hrl
        (by simp) (by simp) (by simp)

theorem c2_rate_limit_before_send_witness :
    hasRateLimit c2World.pageAfterConnect = true ∧
    CAction.clickSend ∉ (handleConnect c2World none).trace ∧
    (handleConnect c2World none).resp = limitReachedResp :=
  ⟨by decide,
   (c2_rate_limit_before_send c2World none (by decide)).1,
   (c2_rate_limit_before_send c2World none (by decide)).2 (Or.inl (by decide))⟩

theorem screenshot_spec (store : ScreenshotStore) (now : Nat) (img : Image) :
    (screenshot store now img).1 = screenshotFilePath now ∧
    (screenshot store now img).2.lookup (screenshotFilePath now) = some img ∧
    jsStartsWith (screenshotFilePath now) SCREENSHOT_DIR = true := by
  refine ⟨rfl, ?_, ?_⟩
  · simp [screenshot, ScreenshotStore.lookup, List.find?]
  · have : (screenshotFilePath now).data =
        SCREENSHOT_DIR.data ++ ("/screenshot-" ++ toString now ++ ".jpeg").data := by
      simp [screenshotFilePath, String.data_append]
    rw [jsStartsWith, this]
    exact List.isPrefixOf_iff_prefix.mpr (List.prefix_append _ _)

theorem evidenceOk_connectProblem (w : ConnectWorld) (reason : ProblemReason)
    (hint : Option String) (tr : List CAction) :
    EvidenceOk w (connectProblem w reason hint tr) := by
  intro r h s c heq
  simp only [connectProblem, createProblemResponse, screenshot] at heq ⊢
  cases heq
  exact ⟨rfl, by simp [ScreenshotStore.lookup, List.find?]⟩

theorem evidenceOk_sendAndVerify (w : ConnectWorld) (message : Option String)
    (tr2 : List CAction) : EvidenceOk w (sendAndVerify w message tr2) := by
  intro r h s c heq
  unfold sendAndVerify at heq ⊢
  split_ifs at heq ⊢ with h1 h2
  · cases herr : w.errorMsgText <;> simp [herr] at heq
  · cases herr : w.errorMsgText <;> simp [herr] at heq
  · exact evidenceOk_connectProblem w _ _ _ r h s c heq

theorem evidenceOk_afterConnectClicked (w : ConnectWorld) (message : Option String)
    (tr : List CAction) : EvidenceOk w (afterConnectClicked w message tr) := by
  intro r h s c heq
  unfold afterConnectClicked at heq ⊢
  split_ifs at heq ⊢ with h1
  exact evidenceOk_sendAndVerify w message _ r h s c heq

theorem evidenceOk_handleConnectOnPage (w : ConnectWorld) (message : Option String)
    (tr : List CAction) : EvidenceOk w (handleConnectOnPage w message tr) := by
  intro r h s c heq
  unfold handleConnectOnPage at heq ⊢
  cases hdp : detectProblems w.pageAfterNav <;> simp only [hdp] at heq ⊢
  · split_ifs at heq ⊢ with h1 h2 h3 h4 h5
    · exact evidenceOk_afterConnectClicked w message _ r h s c heq
    · exact evidenceOk_afterConnectClicked w message _ r h s c heq
    · exact evidenceOk_connectProblem w _ _ _ r h s c heq
    · exact evidenceOk_connectProblem w _ _ _ r h s c heq
  · exact evidenceOk_connectProblem w _ _ _ r h s c heq

theorem evidenceOk_handleConnect (w : ConnectWorld) (message : Option String) :
    EvidenceOk w (handleConnect w message) := by
  intro r h s c heq
  unfold handleConnect at heq ⊢
  split_ifs at heq ⊢ with h1 h2
  · exact evidenceOk_handleConnectOnPage w message [] r h s c heq
  · cases hnav : w.navProblem <;> simp only [hnav] at heq ⊢
    · exact evidenceOk_handleConnectOnPage w message _ r h s c heq
    · exact evidenceOk_connectProblem w _ _ _ r h s c heq

/-- C4: on every `needs_human` outcome of every operation handler, the
response carries only the file path of the captured screenshot artifact,
under which the raw image is retrievable from the artifact store — the raw
image itself is written to the store, never placed in the response.  Stated
for the screenshot primitive, the fully embedded handlers
(`handleNavigate`, `handleSearch`, `handleConnect`), and the `needs_human`
response builders of the remaining handlers (profile, click, type,
scroll). -/
theorem c4_needs_human_evidence_by_reference :
    (∀ (store : ScreenshotStore) (now : Nat) (img : Image),
      (screenshot store now img).1 = screenshotFilePath now ∧
      (screenshot store now img).2.lookup (screenshotFilePath now) = some img ∧
      jsStartsWith (screenshotFilePath now) SCREENSHOT_DIR = true) ∧
    (∀ (w : NavWorld) (url : String) (reason : ProblemReason) (hint shot curl : String)
      (store' : ScreenshotStore),
      handleNavigate w url = (.needsHuman reason hint shot curl, store') →
      shot = screenshotFilePath w.now ∧ store'.lookup shot = some w.viewport) ∧
    (∀ (w : SearchWorld) (largs : Option Int) (reason : ProblemReason)
      (hint shot curl : String) (store' : ScreenshotStore),
      handleSearch w largs = (.needsHuman reason hint shot curl, store') →
      shot = screenshotFilePath w.now ∧ store'.lookup shot = some w.viewport) ∧
    (∀ (w : ConnectWorld) (message : Option String), EvidenceOk w (handleConnect w message)) ∧
    (∀ (store : ScreenshotStore) (now : Nat) (img : Image) (curl : String)
      (reason : ProblemReason) (hint : Option String),
      (createProblemResponseProfile (α := ProfileData) store now img curl reason hint).1 =
        .needsHuman reason (hint.getD ("Problem detected: " ++ reasonText reason))
          (screenshotFilePath now) curl ∧
      (createProblemResponseProfile (α := ProfileData) store now img curl reason hint).2.lookup
        (screenshotFilePath now) = some img) ∧
    (∀ (store : ScreenshotStore) (now : Nat) (img : Image) (curl target : String),
      (clickFailureResponse (α := Unit) store now img curl target).1 =
        .needsHuman .element_not_found
          ("Could not click element: " ++ target ++ ". Screenshot saved to: " ++
            screenshotFilePath now)
          (screenshotFilePath now) curl ∧
      (clickFailureResponse (α := Unit) store now img curl target).2.lookup
        (screenshotFilePath now) = some img) ∧
    (∀ (store : ScreenshotStore) (now : Nat) (img : Image) (curl target : String),
      (typeFailureResponse (α := Unit) store now img curl target).1 =
        .needsHuman .element_not_found
          ("Could not type into element: " ++ target ++ ". Screenshot saved to: " ++
            screenshotFilePath now)
          (screenshotFilePath now) curl ∧
      (typeFailureResponse (α := Unit) store now img curl target).2.lookup
        (screenshotFilePath now) = some img) ∧
    (∀ (store : ScreenshotStore) (now : Nat) (img : Image) (curl : String)
      (problem : DetectedProblem),
      (scrollProblemResponse (α := Unit) store now img curl problem).1 =
        .needsHuman problem.reason problem.hint (screenshotFilePath now) curl ∧
      (scrollProblemResponse (α := Unit) store now img curl problem).2.lookup
        (screenshotFilePath now) = some img) := by
  refine ⟨screenshot_spec, ?_, ?_, evidenceOk_handleConnect, ?_, ?_, ?_, ?_⟩
  · intro w url reason hint shot curl store' heq
    unfold handleNavigate at heq
    by_cases hurl : strContains url "linkedin.com" = true
    · rw [if_neg (by simp [hurl])] at heq
      cases hnav : w.navProblem <;> simp only [hnav] at heq
      · cases hdp : detectProblems w.page <;> simp only [hdp] at heq
        · simp at heq
        · simp only [screenshot] at heq
          injection heq with h1 h2
          injection h1 with e1 e2 e3 e4
          subst e3
          subst h2
          exact ⟨rfl, by simp [ScreenshotStore.lookup, List.find?]⟩
      · simp only [screenshot] at heq
        injection heq with h1 h2
        injection h1 with e1 e2 e3 e4
        subst e3
        subst h2
        exact ⟨rfl, by simp [ScreenshotStore.lookup, List.find?]⟩
    · rw [if_pos (by simp [hurl])] at heq
      simp at heq
  · intro w largs reason hint shot curl store' heq
    unfold handleSearch at heq
    cases hnav : w.navProblem <;> simp only [hnav] at heq
    · cases hdp : detectProblems w.page <;> simp only [hdp] at heq
      · split_ifs at heq with h1 h2
        · simp at heq
        · simp at heq
        · simp only [createProblemResponse, screenshot] at heq
          injection heq with h1' h2'
          injection h1' with e1 e2 e3 e4
          subst e3
          subst h2'
          exact ⟨rfl, by simp [ScreenshotStore.lookup, List.find?]⟩
      · simp only [createProblemResponse, screenshot] at heq
        injection heq with h1 h2
        injection h1 with e1 e2 e3 e4
        subst e3
        subst h2
        exact ⟨rfl, by simp [ScreenshotStore.lookup, List.find?]⟩
    · simp only [createProblemResponse, screenshot] at heq
      injection heq with h1 h2
      injection h1 with e1 e2 e3 e4
      subst e3
      subst h2
      exact ⟨rfl, by simp [ScreenshotStore.lookup, List.find?]⟩
  · intro store now img curl reason hint
    exact ⟨rfl, by simp [createProblemResponseProfile, screenshot, ScreenshotStore.lookup,
      List.find?]⟩
  · intro store now img curl target
    exact ⟨rfl, by simp [clickFailureResponse, screenshot, ScreenshotStore.lookup, List.find?]⟩
  · intro store now img curl target
    exact ⟨rfl, by simp [typeFailureResponse, screenshot, ScreenshotStore.lookup, List.find?]⟩
  · intro store now img curl problem
    exact ⟨rfl, by simp [scrollProblemResponse, screenshot, ScreenshotStore.lookup, List.find?]⟩

theorem c4_needs_human_evidence_by_reference_witness :
    screenshotFilePath 7 = screenshotFilePath c4NavWorld.now ∧
    ScreenshotStore.lookup { files := [(screenshotFilePath 7, c4NavWorld.viewport)] }
      (screenshotFilePath 7) = some c4NavWorld.viewport :=
  c4_needs_human_evidence_by_reference.2.1 c4NavWorld "https://www.linkedin.com/feed"
    .navigation_failed "Navigation failed - check the screenshot" (screenshotFilePath 7)
    "https://www.linkedin.com/feed" { files := [(screenshotFilePath 7, c4NavWorld.viewport)] }
    (by decide)

/-- C7 counterexample: a `linkedin_search` invocation with `limit = 30`
(exceeding 25) is not rejected: the handler returns a `Success` outcome
(here the empty no-results response), not an `Error` — the over-limit
argument is silently clamped instead of being reported. -/
theorem c7_counterexample :
    (handleSearch c7World (some 30)).1 =
      .success { results := [], total_results := 0, has_more := false } ∧
    (handleSearch c7World (some 30)).1.isError = false ∧
    searchLimitArg (some 30) = 25 := by
  refine ⟨by decide, by decide, by decide⟩

/-- C7 amended: an over-limit `limit` argument is silently clamped to 25 —
the handler behaves exactly as if 25 had been passed, and produces no
`Error` for the violation. -/
theorem c7_limit_silently_clamped (w : SearchWorld) (l : Int) (hl : 25 < l) :
    searchLimitArg (some l) = 25 ∧
    handleSearch w (some l) = handleSearch w (some 25) := by
  have harg : searchLimitArg (some l) = 25 := by
    simp only [searchLimitArg]
    rw [if_neg (by omega)]
    omega
  have harg25 : searchLimitArg (some 25) = 25 := by decide
  have hused : searchLimitUsed (some l) = searchLimitUsed (some 25) := by
    simp only [searchLimitUsed, harg, harg25]
  refine ⟨harg, ?_⟩
  unfold handleSearch
  rw [hused]

theorem c7_limit_silently_clamped_witness :
    (25 : Int) < 30 ∧ handleSearch c7World (some 30) = handleSearch c7World (some 25) :=
  ⟨by decide, (c7_limit_silently_clamped c7World 30 (by decide)).2⟩

/-- C9 counterexample: for the invocation `limit = -1` (a number the schema
does not forbid), the clamp `Math.min(-1, 25)` keeps `-1`, the parse loop
runs zero times, and the handler returns `Success` with an empty result
list and `has_more = true`; the returned length 0 is **not** at most the
requested limit −1, so the claim's parenthetical bound fails as stated. -/
theorem c9_counterexample :
    (handleSearch c9World (some (-1))).1 =
      .success { results := [], total_results := 0, has_more := true } ∧
    searchLimitUsed (some (-1)) = -1 ∧
    ¬ ((0 : Int) ≤ searchLimitUsed (some (-1))) := by
  refine ⟨by decide, by decide, by decide⟩

theorem searchLimitUsed_bounds (largs : Option Int)
    (hl : largs = none ∨ ∃ v, largs = some v ∧ 0 ≤ v) :
    1 ≤ searchLimitUsed largs ∧ searchLimitUsed largs ≤ 25 := by
  rcases hl with rfl | ⟨v, rfl, hv⟩
  · decide
  · simp only [searchLimitUsed, searchLimitArg]
    by_cases hv0 : v = 0
    · subst hv0
      decide
    · rw [if_neg hv0]
      constructor
      · split_ifs with hz
        · omega
        · omega
      · split_ifs with hz
        · omega
        · omega

theorem parseSearchResults_length_le (items : List SearchItem) (limit : Int)
    (hlim : 0 ≤ limit) :
    ((parseSearchResults items limit).length : Int) ≤ limit := by
  have h1 : (parseSearchResults items limit).length ≤
      (items.take ((min (items.length : Int) limit).toNat)).length :=
    List.length_filterMap_le _ _
  have h2 : (items.take ((min (items.length : Int) limit).toNat)).length ≤
      (min (items.length : Int) limit).toNat := by
    rw [List.length_take]
    omega
  have h3 : (min (items.length : Int) limit).toNat ≤ limit.toNat := by
    omega
  omega

/-- C9 amended: in every `Success` response of `linkedin_search` for an
absent or nonnegative `limit` argument, `total_results` equals the length
of the returned results array, that length is at most the effective limit
(capped at 25), and `has_more` is true exactly when the length reaches the
limit; `total_results` is never the site-wide number of matches — it is
always the returned array's length. -/
theorem c9_search_success_counts (w : SearchWorld) (largs : Option Int)
    (hl : largs = none ∨ ∃ v, largs = some v ∧ 0 ≤ v) (out : SearchOutput)
    (store' : ScreenshotStore) (hrun : handleSearch w largs = (.success out, store')) :
    out.total_results = out.results.length ∧
    (out.results.length : Int) ≤ searchLimitUsed largs ∧
    searchLimitUsed largs ≤ 25 ∧
    (out.has_more = true ↔ searchLimitUsed largs ≤ (out.results.length : Int)) := by
  obtain ⟨hlow, hhigh⟩ := searchLimitUsed_bounds largs hl
  unfold handleSearch at hrun
  cases hnav : w.navProblem <;> simp only [hnav] at hrun
  · cases hdp : detectProblems w.page <;> simp only [hdp] at hrun
    · split_ifs at hrun with h1 h2
      · -- main parsing branch
        injection hrun with hresp hstore
        injection hresp with hout
        subst hout
        refine ⟨rfl, parseSearchResults_length_le w.items _ (by omega), hhigh, ?_⟩
        simp
      · -- empty no-results branch
        injection hrun with hresp hstore
        injection hresp with hout
        subst hout
        refine ⟨rfl, by simp only [SearchOutput.results, List.length_nil, Nat.cast_zero]; omega,
          hhigh, ?_⟩
        simp only [SearchOutput.has_more, SearchOutput.results, List.length_nil,
          Nat.cast_zero]
        constructor
        · intro hfalse
          cases hfalse
        · intro hle
          exfalso
          omega
      · simp [createProblemResponse, screenshot] at hrun
    · simp [createProblemResponse, screenshot] at hrun
  · simp [createProblemResponse, screenshot] at hrun

theorem c9_search_success_counts_witness :
    ((0 : Int) ≤ 5) ∧
    ((0 : Nat) = 0 ∧ ((0 : Nat) : Int) ≤ searchLimitUsed (some 5) ∧
      searchLimitUsed (some 5) ≤ 25 ∧
      (false = true ↔ searchLimitUsed (some 5) ≤ ((0 : Nat) : Int))) :=
  ⟨by decide,
   c9_search_success_counts c9World (some 5) (Or.inr ⟨5, rfl, by decide⟩)
     { results := [], total_results := 0, has_more := false } c9World.store (by decide)⟩

/-- C10 counterexample: an experience item parses (the returned experience
list is nonempty — it holds the Engineer/Beta position), yet `current_*`
are taken from the headline (`Dev` / `Acme`), not from the first listed
experience.  The first *pushed* item is marked current only when it sits at
DOM index 0; here the index-0 item is skipped, so nothing is marked current
and the headline fallback runs — refuting the claim that parsing at least
one experience item always sources `current_company`/`current_position`
from the first listed experience. -/
theorem c10_counterexample :
    parseExperience c10Page.expItems =
      [{ title := "Engineer", company := "Beta", duration := "2019 - 2020",
         is_current := false }] ∧
    (parseProfileData c10Page).experience ≠ [] ∧
    (parseProfileData c10Page).current_position = "Dev" ∧
    (parseProfileData c10Page).current_company = "Acme" ∧
    (parseProfileData c10Page).current_position ≠ "Engineer" := by
  refine ⟨by decide, by decide, by decide, by decide, by decide⟩

/-- C10 amended: an experience item is marked `is_current` iff its duration
text contains `present` or `obecnie` or the item sits at index 0 of the
experience DOM list; consequently, whenever the **first** experience DOM
item parses (yields a title or a company), `current_company` and
`current_position` are taken from the first listed experience — which is
marked current — rather than from the headline. -/
theorem c10_first_item_current (pp : ProfilePage) (item0 : ExpItem)
    (rest : List ExpItem) (hitems : pp.expItems = item0 :: rest)
    (hkeep : expKeep item0 = true) :
    (∀ (i : Nat) (item : ExpItem),
      expIsCurrent i item = true ↔ (durationMarksCurrent item.durationText = true ∨ i = 0)) ∧
    (∃ e rest', parseExperience pp.expItems = e :: rest' ∧ e = mkExperience 0 item0 ∧
      e.is_current = true) ∧
    (parseProfileData pp).current_company = (item0.companyText.map jsTrim).getD "" ∧
    (parseProfileData pp).current_position = (item0.titleText.map jsTrim).getD "" := by
  have hiff : ∀ (i : Nat) (item : ExpItem),
      expIsCurrent i item = true ↔ (durationMarksCurrent item.durationText = true ∨ i = 0) := by
    intro i item
    simp [expIsCurrent, durationMarksCurrent]
  have hcur0 : expIsCurrent 0 item0 = true := by
    simp [expIsCurrent]
  have hparse : parseExperience pp.expItems =
      mkExperience 0 item0 :: parseExperienceAux 1 (rest.take 4) := by
    rw [parseExperience, hitems, List.take_succ_cons, parseExperienceAux, if_pos hkeep]
  have hfind : (parseExperience pp.expItems).find? (fun e => e.is_current) =
      some (mkExperience 0 item0) := by
    rw [hparse]
    rw [List.find?_cons_of_pos]
    simp only [mkExperience]
    exact hcur0
  have hcfe : currentFromExperience ((pp.headlineText.map jsTrim).getD "")
      (parseExperience pp.expItems) =
      ((item0.companyText.map jsTrim).getD "", (item0.titleText.map jsTrim).getD "") := by
    rw [currentFromExperience, hfind]
    rfl
  refine ⟨hiff, ⟨mkExperience 0 item0, parseExperienceAux 1 (rest.take 4), hparse, rfl, ?_⟩,
    ?_, ?_⟩
  · simpa [mkExperience] using hcur0
  · show (currentFromExperience ((pp.headlineText.map jsTrim).getD "")
        (parseExperience pp.expItems)).1 = _
    rw [hcfe]
  · show (currentFromExperience ((pp.headlineText.map jsTrim).getD "")
        (parseExperience pp.expItems)).2 = _
    rw [hcfe]

theorem c10_first_item_current_witness :
    expKeep { titleText := some "CTO", companyText := some "Acme",
              durationText := some "2020 - obecnie" } = true ∧
    (parseProfileData c10GoodPage).current_company = "Acme" ∧
    (parseProfileData c10GoodPage).current_position = "CTO" :=
  ⟨by decide,
   by
     have h := c10_first_item_current c10GoodPage
       { titleText := some "CTO", companyText := some "Acme",
         durationText := some "2020 - obecnie" }
       [{ titleText := some "Engineer", companyText := some "Beta",
          durationText := some "2019 - 2020" }] rfl (by decide)
     exact h.2.2.1.trans (by decide),
   by
     have h := c10_first_item_current c10GoodPage
       { titleText := some "CTO", companyText := some "Acme",
         durationText := some "2020 - obecnie" }
       [{ titleText := some "Engineer", companyText := some "Beta",
          durationText := some "2019 - 2020" }] rfl (by decide)
     exact h.2.2.2.trans (by decide)⟩

end LinkedinMcp
